import Mathlib

/-
  Verification of the "cc-env" environment-snapshot subcommand (cc-env.go).

  The Go source is shallowly embedded: pure structs become Lean structures,
  fallible functions return `Except String` (Go errors carry their message
  string), and every external effect (symlink resolution, host introspection)
  is an explicit oracle field of an `Env` record, so that each function of the
  source becomes a pure Lean function of the oracle and its arguments.
-/

namespace CCEnv

/-- Semantic version for the output of the "cc-env" command (cc-env.go line 35). -/
def formatVersion : String := "1.0.0"

/-- Modelled from the spec: the fixed "unknown" placeholder string used for
proxy/shim/agent versions ("version is reported as a fixed \"unknown\"
placeholder"); the constant itself is defined outside src/. Its exact text is
immaterial to every claim, which only compare fields against this constant. -/
def unknown : String := "unknown"

/-- Modelled from the spec: the static build version string ("static build
version strings", "process-wide version constants"); defined outside src/. -/
def version : String := "3.0.0"

/-- Modelled from the spec: the static build commit string; defined outside src/. -/
def commit : String := "0000000"

/-- Modelled from the spec: the OCI runtime-spec version constant
(`specs.Version`), an external constant merely copied into the snapshot. -/
def specsVersion : String := "1.0.0-rc1"

/-- MetaInfo stores information on the format of the output itself. -/
structure MetaInfo where
  Version : String
deriving Repr, DecidableEq

/-- PathInfo stores a path in its original, and fully resolved forms. -/
structure PathInfo where
  Path : String
  Resolved : String
deriving Repr, DecidableEq

/-- CPUInfo stores host CPU details. -/
structure CPUInfo where
  Vendor : String
  Model : String
deriving Repr, DecidableEq

/-- RuntimeConfigInfo stores runtime config details. -/
structure RuntimeConfigInfo where
  Location : PathInfo
  GlobalLogPath : String
deriving Repr, DecidableEq

/-- RuntimeVersionInfo stores details of the runtime version. -/
structure RuntimeVersionInfo where
  Semver : String
  Commit : String
  OCI : String
deriving Repr, DecidableEq

/-- RuntimeInfo stores runtime details. -/
structure RuntimeInfo where
  Version : RuntimeVersionInfo
  Config : RuntimeConfigInfo
deriving Repr, DecidableEq

/-- ProxyInfo stores proxy details. -/
structure ProxyInfo where
  Type' : String
  Version : String
  URL : String
deriving Repr, DecidableEq

/-- ShimInfo stores shim details. -/
structure ShimInfo where
  Type' : String
  Version : String
  Location : PathInfo
deriving Repr, DecidableEq

/-- AgentInfo stores agent details. -/
structure AgentInfo where
  Type' : String
  Version : String
  PauseBin : PathInfo
deriving Repr, DecidableEq

/-- DistroInfo stores host operating system distribution details. -/
structure DistroInfo where
  Name : String
  Version : String
deriving Repr, DecidableEq

/-- HostInfo stores host details. -/
structure HostInfo where
  Kernel : String
  Distro : DistroInfo
  CPU : CPUInfo
  CCCapable : Bool
deriving Repr, DecidableEq

/-- EnvInfo collects all information displayed by the "cc-env" command. -/
structure EnvInfo where
  Meta : MetaInfo
  Runtime : RuntimeInfo
  Hypervisor : PathInfo
  Image : PathInfo
  Kernel : PathInfo
  Proxy : ProxyInfo
  Shim : ShimInfo
  Agent : AgentInfo
  Host : HostInfo
deriving Repr, DecidableEq

/-- `vc.CCProxyConfig`: the concrete proxy configuration the code narrows to;
only the URL field is read by cc-env.go. -/
structure CCProxyConfig where
  URL : String
deriving Repr, DecidableEq

/-- `vc.CCShimConfig`: the concrete shim configuration; only Path is read. -/
structure CCShimConfig where
  Path : String
deriving Repr, DecidableEq

/-- `vc.HyperConfig`: the concrete agent configuration; only PauseBinPath is read. -/
structure HyperConfig where
  PauseBinPath : String
deriving Repr, DecidableEq

/-- The dynamic (`interface\x7b\x7d`) value held in `config.ProxyConfig`: either the
expected concrete `vc.CCProxyConfig`, or any other dynamic type (on which the
Go type assertion `.(vc.CCProxyConfig)` fails). -/
inductive ProxyConfigValue where
  | ccProxy : CCProxyConfig → ProxyConfigValue
  | other : ProxyConfigValue
deriving Repr, DecidableEq

/-- The dynamic value held in `config.ShimConfig`. -/
inductive ShimConfigValue where
  | ccShim : CCShimConfig → ShimConfigValue
  | other : ShimConfigValue
deriving Repr, DecidableEq

/-- The dynamic value held in `config.AgentConfig`. -/
inductive AgentConfigValue where
  | hyper : HyperConfig → AgentConfigValue
  | other : AgentConfigValue
deriving Repr, DecidableEq

/-- The hypervisor section of the runtime configuration: the three paths
cc-env.go reads (`HypervisorPath`, `ImagePath`, `KernelPath`). -/
structure HypervisorConfig where
  HypervisorPath : String
  ImagePath : String
  KernelPath : String
deriving Repr, DecidableEq

/-- `oci.RuntimeConfig`: the fields cc-env.go reads. -/
structure RuntimeConfig where
  ProxyType : String
  ProxyConfig : ProxyConfigValue
  ShimType : String
  ShimConfig : ShimConfigValue
  AgentType : String
  AgentConfig : AgentConfigValue
  HypervisorConfig : HypervisorConfig
deriving Repr, DecidableEq

/-- The external world as an oracle record: each field models one opaque
collaborator the snapshot builder calls. `evalSymlinks` is
`filepath.EvalSymlinks`; the remaining fields are, per the spec, the "host
introspection providers" (`getKernelVersion`, `getDistroDetails`,
`getCPUDetails`) and the virtualization-capability probe
(`hostIsClearContainersCapable procCPUInfo`), each independently fallible. -/
structure Env where
  evalSymlinks : String → Except String String
  kernelVersion : Except String String
  distroDetails : Except String (String × String)
  cpuDetails : Except String (String × String)
  ccCapableProbe : Except String Unit

def getMetaInfo : MetaInfo :=
  { Version := formatVersion }

def getRuntimeInfo (env : Env) (configFile logFile : String) :
    Except String RuntimeInfo := do
  let configFileResolved ← env.evalSymlinks configFile
  let runtimeVersion : RuntimeVersionInfo :=
    { Semver := version
      Commit := commit
      OCI := specsVersion }
  let runtimeConfig : RuntimeConfigInfo :=
    { GlobalLogPath := logFile
      Location :=
        { Path := configFile
          Resolved := configFileResolved } }
  pure { Version := runtimeVersion, Config := runtimeConfig }

def getHostInfo (env : Env) : Except String HostInfo := do
  let hostKernelVersion ← env.kernelVersion
  let distro ← env.distroDetails
  let cpu ← env.cpuDetails
  let hostCCCapable : Bool :=
    match env.ccCapableProbe with
    | .ok _ => true
    | .error _ => false
  pure
    { Kernel := hostKernelVersion
      Distro := { Name := distro.1, Version := distro.2 }
      CPU := { Vendor := cpu.1, Model := cpu.2 }
      CCCapable := hostCCCapable }

def getProxyInfo (config : RuntimeConfig) : Except String ProxyInfo :=
  match config.ProxyConfig with
  | .other => .error "cannot determine proxy config"
  | .ccProxy proxyConfig =>
      .ok
        { Type' := config.ProxyType
          Version := unknown
          URL := proxyConfig.URL }

def getShimInfo (env : Env) (config : RuntimeConfig) : Except String ShimInfo :=
  match config.ShimConfig with
  | .other => .error "cannot determine shim config"
  | .ccShim shimConfig => do
      let shimPathResolved ← env.evalSymlinks shimConfig.Path
      pure
        { Type' := config.ShimType
          Version := unknown
          Location :=
            { Path := shimConfig.Path
              Resolved := shimPathResolved } }

def getAgentInfo (env : Env) (config : RuntimeConfig) : Except String AgentInfo :=
  match config.AgentConfig with
  | .other => .error "cannot determine agent config"
  | .hyper agentConfig => do
      let agentBinPathResolved ← env.evalSymlinks agentConfig.PauseBinPath
      pure
        { Type' := config.AgentType
          Version := unknown
          PauseBin :=
            { Path := agentConfig.PauseBinPath
              Resolved := agentBinPathResolved } }

/-- Modelled from the spec: `getHypervisorDetails` lives outside src/ (only its
call site at cc-env.go line 275 is in src/). Per the spec it resolves the
hypervisor, image and kernel paths of the runtime configuration's hypervisor
section, and construction fails if a path is unresolved. -/
def getHypervisorDetails (env : Env) (config : RuntimeConfig) :
    Except String HypervisorConfig := do
  let h ← env.evalSymlinks config.HypervisorConfig.HypervisorPath
  let i ← env.evalSymlinks config.HypervisorConfig.ImagePath
  let k ← env.evalSymlinks config.HypervisorConfig.KernelPath
  pure { HypervisorPath := h, ImagePath := i, KernelPath := k }

def getEnvInfo (env : Env) (configFile logfilePath : String)
    (config : RuntimeConfig) : Except String EnvInfo := do
  let meta := getMetaInfo
  let ccRuntime ← getRuntimeInfo env configFile logfilePath
  let resolvedHypervisor ← getHypervisorDetails env config
  let ccHost ← getHostInfo env
  let ccProxy ← getProxyInfo config
  let ccShim ← getShimInfo env config
  let ccAgent ← getAgentInfo env config
  let hypervisor : PathInfo :=
    { Path := config.HypervisorConfig.HypervisorPath
      Resolved := resolvedHypervisor.HypervisorPath }
  let image : PathInfo :=
    { Path := config.HypervisorConfig.ImagePath
      Resolved := resolvedHypervisor.ImagePath }
  let kernel : PathInfo :=
    { Path := config.HypervisorConfig.KernelPath
      Resolved := resolvedHypervisor.KernelPath }
  pure
    { Meta := meta
      Runtime := ccRuntime
      Hypervisor := hypervisor
      Image := image
      Kernel := kernel
      Proxy := ccProxy
      Shim := ccShim
      Agent := ccAgent
      Host := ccHost }

/-- Lower-case hexadecimal digit character for a value below 16. -/
def hexDig (n : Nat) : Char :=
  if n < 10 then Char.ofNat (48 + n) else Char.ofNat (87 + n)

/-- Value of a lower-case hexadecimal digit character. -/
def hexVal (c : Char) : Option Nat :=
  if 48 ≤ c.toNat ∧ c.toNat ≤ 57 then some (c.toNat - 48)
  else if 97 ≤ c.toNat ∧ c.toNat ≤ 102 then some (c.toNat - 87)
  else none

/-- TOML basic-string escaping of one character: quote, backslash and the
named control characters get two-character escapes, the remaining control
characters get a unicode escape, and every other character stands for itself. -/
def escChar (c : Char) : List Char :=
  if c = '"' then ['\\', '"']
  else if c = '\\' then ['\\', '\\']
  else if c = '\n' then ['\\', 'n']
  else if c = '\t' then ['\\', 't']
  else if c = '\r' then ['\\', 'r']
  else if c.toNat < 32 then
    ['\\', 'u', '0', '0', hexDig (c.toNat / 16), hexDig (c.toNat % 16)]
  else [c]

/-- TOML basic-string escaping of a character sequence. -/
def escStr : List Char → List Char
  | [] => []
  | c :: cs => escChar c ++ escStr cs

/-- Prepend a decoded character to the result of reading the remainder of a
quoted string. -/
def consFst (c : Char) :
    Option (List Char × List Char) → Option (List Char × List Char)
  | some (v, rest) => some (c :: v, rest)
  | none => none

/-- Read the body of a TOML basic string up to and including its closing
quote, undoing the escapes of `escChar`; returns the decoded characters and
the unconsumed remainder of the input. -/
def readStr : List Char → Option (List Char × List Char)
  | [] => none
  | '"' :: rest => some ([], rest)
  | '\\' :: '"' :: rest => consFst '"' (readStr rest)
  | '\\' :: '\\' :: rest => consFst '\\' (readStr rest)
  | '\\' :: 'n' :: rest => consFst '\n' (readStr rest)
  | '\\' :: 't' :: rest => consFst '\t' (readStr rest)
  | '\\' :: 'r' :: rest => consFst '\r' (readStr rest)
  | '\\' :: 'u' :: d3 :: d2 :: d1 :: d0 :: rest =>
    match hexVal d3, hexVal d2, hexVal d1, hexVal d0 with
    | some h3, some h2, some h1, some h0 =>
      consFst (Char.ofNat (((h3 * 16 + h2) * 16 + h1) * 16 + h0)) (readStr rest)
    | _, _, _, _ => none
  | '\\' :: _ :: _ => none
  | ['\\'] => none
  | c :: rest => consFst c (readStr rest)

/-- Consume an expected literal character sequence from the input. -/
def dropLit : List Char → List Char → Option (List Char)
  | [], input => some input
  | _ :: _, [] => none
  | c :: cs, d :: input => if c = d then dropLit cs input else none

/-- TOML rendering of a boolean value. -/
def boolChars : Bool → List Char
  | true => ['t', 'r', 'u', 'e']
  | false => ['f', 'a', 'l', 's', 'e']

/-- Read a TOML boolean value. -/
def readBool (input : List Char) : Option (Bool × List Char) :=
  match dropLit (boolChars true) input with
  | some rest => some (true, rest)
  | none =>
    match dropLit (boolChars false) input with
    | some rest => some (false, rest)
    | none => none

/-- Interleave literal chunks with quoted string field values: each field is
rendered as its preceding literal (section headers, key and opening quote),
the escaped value, and the closing quote; the trailing document part follows
the last field. -/
def encZip : List (List Char) → List String → List Char → List Char
  | pre :: ps, v :: vs, tail => pre ++ (escStr v.data ++ '"' :: encZip ps vs tail)
  | _, _, tail => tail

/-- Parse a sequence of quoted string fields, each introduced by its expected
literal chunk. -/
def parseFields : List (List Char) → List Char → Option (List String × List Char)
  | [], input => some ([], input)
  | pre :: ps, input => do
    let r ← dropLit pre input
    let (v, r') ← readStr r
    let (vs, r'') ← parseFields ps r'
    pure (String.mk v :: vs, r'')

/-- Literal chunks introducing the string fields of the document, from the
start through `Host.Kernel`: TOML tables mirror the `EnvInfo` hierarchy. -/
def preLits1 : List (List Char) :=
  ["[Meta]\nVersion = \"".data,
   "\n[Runtime]\n[Runtime.Version]\nSemver = \"".data,
   "\nCommit = \"".data,
   "\nOCI = \"".data,
   "\n[Runtime.Config]\nGlobalLogPath = \"".data,
   "\n[Runtime.Config.Location]\nPath = \"".data,
   "\nResolved = \"".data,
   "\n[Hypervisor]\nPath = \"".data,
   "\nResolved = \"".data,
   "\n[Image]\nPath = \"".data,
   "\nResolved = \"".data,
   "\n[Kernel]\nPath = \"".data,
   "\nResolved = \"".data,
   "\n[Proxy]\nType = \"".data,
   "\nVersion = \"".data,
   "\nURL = \"".data,
   "\n[Shim]\nType = \"".data,
   "\nVersion = \"".data,
   "\n[Shim.Location]\nPath = \"".data,
   "\nResolved = \"".data,
   "\n[Agent]\nType = \"".data,
   "\nVersion = \"".data,
   "\n[Agent.PauseBin]\nPath = \"".data,
   "\nResolved = \"".data,
   "\n[Host]\nKernel = \"".data]

/-- Literal chunk introducing the boolean `Host.CCCapable` field. -/
def boolPre : List Char := "\nCCCapable = ".data

/-- Literal chunks introducing the string fields after the boolean field. -/
def preLits2 : List (List Char) :=
  ["\n[Host.Distro]\nName = \"".data,
   "\nVersion = \"".data,
   "\n[Host.CPU]\nVendor = \"".data,
   "\nModel = \"".data]

/-- Final newline of the document. -/
def tailLit : List Char := "\n".data

/-- The string field values of an `EnvInfo` up to `Host.Kernel`, in document
order. -/
def vals1 (e : EnvInfo) : List String :=
  [e.Meta.Version, e.Runtime.Version.Semver, e.Runtime.Version.Commit,
   e.Runtime.Version.OCI, e.Runtime.Config.GlobalLogPath,
   e.Runtime.Config.Location.Path, e.Runtime.Config.Location.Resolved,
   e.Hypervisor.Path, e.Hypervisor.Resolved, e.Image.Path, e.Image.Resolved,
   e.Kernel.Path, e.Kernel.Resolved, e.Proxy.Type', e.Proxy.Version,
   e.Proxy.URL, e.Shim.Type', e.Shim.Version, e.Shim.Location.Path,
   e.Shim.Location.Resolved, e.Agent.Type', e.Agent.Version,
   e.Agent.PauseBin.Path, e.Agent.PauseBin.Resolved, e.Host.Kernel]

/-- The string field values of an `EnvInfo` after the boolean field. -/
def vals2 (e : EnvInfo) : List String :=
  [e.Host.Distro.Name, e.Host.Distro.Version, e.Host.CPU.Vendor,
   e.Host.CPU.Model]

/-- Modelled from the spec: the serializer used by `showSettings` is the
external toml encoder, which "serializes the aggregate into a structured,
nested key-value text format (tables/sections mirroring the aggregate's field
hierarchy)". The document is the sequence of tables of `EnvInfo` in field
order, string values as escaped TOML basic strings, the capability flag as a
TOML boolean. -/
def encodeEnvInfoL (e : EnvInfo) : List Char :=
  encZip preLits1 (vals1 e)
    (boolPre ++ (boolChars e.Host.CCCapable ++ encZip preLits2 (vals2 e) tailLit))

/-- The rendered document as a string. -/
def encodeEnvInfo (e : EnvInfo) : String := String.mk (encodeEnvInfoL e)

/-- Modelled from the spec: the reverse direction of the round-trip property,
"parsing the produced document back into the same structured shape"; the
repository has no parser, so this decoder reads exactly the document grammar
that `encodeEnvInfoL` emits and rebuilds the `EnvInfo`. -/
def decodeEnvInfoL (input : List Char) : Option EnvInfo := do
  let (vs1, r1) ← parseFields preLits1 input
  let r2 ← dropLit boolPre r1
  let (b, r3) ← readBool r2
  let (vs2, r4) ← parseFields preLits2 r3
  let r5 ← dropLit tailLit r4
  match r5, vs1, vs2 with
  | [], [v1, v2, v3, v4, v5, v6, v7, v8, v9, v10, v11, v12, v13, v14, v15,
         v16, v17, v18, v19, v20, v21, v22, v23, v24, v25],
        [v26, v27, v28, v29] =>
      some
        { Meta := { Version := v1 }
          Runtime :=
            { Version := { Semver := v2, Commit := v3, OCI := v4 }
              Config :=
                { Location := { Path := v6, Resolved := v7 }
                  GlobalLogPath := v5 } }
          Hypervisor := { Path := v8, Resolved := v9 }
          Image := { Path := v10, Resolved := v11 }
          Kernel := { Path := v12, Resolved := v13 }
          Proxy := { Type' := v14, Version := v15, URL := v16 }
          Shim :=
            { Type' := v17, Version := v18
              Location := { Path := v19, Resolved := v20 } }
          Agent :=
            { Type' := v21, Version := v22
              PauseBin := { Path := v23, Resolved := v24 } }
          Host :=
            { Kernel := v25
              Distro := { Name := v26, Version := v27 }
              CPU := { Vendor := v28, Model := v29 }
              CCCapable := b } }
  | _, _, _ => none

/-- Parse a rendered document back into an `EnvInfo`. -/
def decodeEnvInfo (s : String) : Option EnvInfo := decodeEnvInfoL s.data

/-- showSettings encodes the snapshot as TOML and writes it to the output
file; the write is modelled as returning the document written (the encoder is
total on this fixed aggregate, so the Go error path is only a failing sink). -/
def showSettings (ccEnv : EnvInfo) : String := encodeEnvInfo ccEnv

/-- A dynamically typed value of the `context.App.Metadata` map: the Go type
assertions in handleSettings expect a string or an `oci.RuntimeConfig`; any
other dynamic type makes the assertion fail. -/
inductive MetaValue where
  | str : String → MetaValue
  | runtimeConfig : RuntimeConfig → MetaValue
  | other : MetaValue

/-- `context.App.Metadata`: a string-keyed map of dynamically typed values;
a missing key yields `none`, on which a type assertion also fails. -/
def Metadata := String → Option MetaValue

def handleSettings (env : Env) (metadata : Metadata) : Except String String := do
  let configFile ←
    match metadata "configFile" with
    | some (.str s) => Except.ok s
    | _ => Except.error "cannot determine config file"
  let runtimeConfig ←
    match metadata "runtimeConfig" with
    | some (.runtimeConfig c) => Except.ok c
    | _ => Except.error "cannot determine runtime config"
  let logfilePath ←
    match metadata "logfilePath" with
    | some (.str s) => Except.ok s
    | _ => Except.error "cannot determine logfile config"
  let ccEnv ← getEnvInfo env configFile logfilePath runtimeConfig
  pure (showSettings ccEnv)

/-- A concrete symlink-resolution oracle for witnesses, realizing the spec's
scenario: the config file resolves to itself, `/usr/bin/shim` is a symlink to
`/usr/bin/shim-v2`, and the remaining binaries resolve to themselves. -/
def sampleFS : String → Except String String := fun p =>
  if p = "/etc/runtime/config.toml" then .ok "/etc/runtime/config.toml"
  else if p = "/usr/bin/shim" then .ok "/usr/bin/shim-v2"
  else if p = "/usr/bin/pause" then .ok "/usr/bin/pause"
  else if p = "/usr/bin/qemu" then .ok "/usr/bin/qemu"
  else if p = "/usr/share/image.img" then .ok "/usr/share/image.img"
  else if p = "/usr/share/vmlinuz" then .ok "/usr/share/vmlinuz"
  else .error "no such file or directory"

/-- A concrete oracle on which every probe succeeds. -/
def sampleEnv : Env :=
  { evalSymlinks := sampleFS
    kernelVersion := .ok "4.14.0"
    distroDetails := .ok ("Clear Linux", "21060")
    cpuDetails := .ok ("GenuineIntel", "Xeon")
    ccCapableProbe := .ok () }

/-- A concrete runtime configuration whose proxy/shim/agent sections are of
the correct concrete types, with shim path `/usr/bin/shim`. -/
def sampleConfig : RuntimeConfig :=
  { ProxyType := "ccProxy"
    ProxyConfig := .ccProxy { URL := "unix:///run/cc-proxy.sock" }
    ShimType := "ccShim"
    ShimConfig := .ccShim { Path := "/usr/bin/shim" }
    AgentType := "hyperstart"
    AgentConfig := .hyper { PauseBinPath := "/usr/bin/pause" }
    HypervisorConfig :=
      { HypervisorPath := "/usr/bin/qemu"
        ImagePath := "/usr/share/image.img"
        KernelPath := "/usr/share/vmlinuz" } }

/-- An oracle on which both the hypervisor-path resolution and the host
kernel-version probe fail, exposing which of the two errors getEnvInfo
reports. -/
def envBothFail : Env :=
  { evalSymlinks := fun p =>
      if p = "/usr/bin/qemu" then .error "hypervisor path error" else sampleFS p
    kernelVersion := .error "host probe error"
    distroDetails := .ok ("Clear Linux", "21060")
    cpuDetails := .ok ("GenuineIntel", "Xeon")
    ccCapableProbe := .ok () }

/-- A concrete metadata map holding the three entries handleSettings reads. -/
def sampleMetadata : Metadata := fun k =>
  if k = "configFile" then some (.str "/etc/runtime/config.toml")
  else if k = "runtimeConfig" then some (.runtimeConfig sampleConfig)
  else if k = "logfilePath" then some (.str "/var/log/runtime.log")
  else none

/-- `sampleConfig` with a proxy configuration of an unexpected dynamic type. -/
def badProxyConfig : RuntimeConfig := { sampleConfig with ProxyConfig := .other }

/-- `sampleConfig` with a shim configuration of an unexpected dynamic type. -/
def badShimConfig : RuntimeConfig := { sampleConfig with ShimConfig := .other }

/-- `sampleConfig` with an agent configuration of an unexpected dynamic type. -/
def badAgentConfig : RuntimeConfig := { sampleConfig with AgentConfig := .other }

/-- `sampleEnv` with a failing virtualization-capability probe. -/
def envProbeFail : Env :=
  { sampleEnv with ccCapableProbe := .error "CPU property not found" }

/-- A metadata map whose configFile entry names an unresolvable path. -/
def sampleMetadataBadPath : Metadata := fun k =>
  if k = "configFile" then some (.str "/nonexistent.toml")
  else if k = "runtimeConfig" then some (.runtimeConfig sampleConfig)
  else if k = "logfilePath" then some (.str "/var/log/runtime.log")
  else none

/-- The snapshot getEnvInfo produces at the sample inputs. -/
def sampleSnapshot : EnvInfo :=
  { Meta := { Version := "1.0.0" }
    Runtime :=
      { Version := { Semver := version, Commit := commit, OCI := specsVersion }
        Config :=
          { Location :=
              { Path := "/etc/runtime/config.toml"
                Resolved := "/etc/runtime/config.toml" }
            GlobalLogPath := "/var/log/runtime.log" } }
    Hypervisor := { Path := "/usr/bin/qemu", Resolved := "/usr/bin/qemu" }
    Image := { Path := "/usr/share/image.img", Resolved := "/usr/share/image.img" }
    Kernel := { Path := "/usr/share/vmlinuz", Resolved := "/usr/share/vmlinuz" }
    Proxy := { Type' := "ccProxy", Version := unknown
               URL := "unix:///run/cc-proxy.sock" }
    Shim := { Type' := "ccShim", Version := unknown
              Location := { Path := "/usr/bin/shim", Resolved := "/usr/bin/shim-v2" } }
    Agent := { Type' := "hyperstart", Version := unknown
               PauseBin := { Path := "/usr/bin/pause", Resolved := "/usr/bin/pause" } }
    Host :=
      { Kernel := "4.14.0"
        Distro := { Name := "Clear Linux", Version := "21060" }
        CPU := { Vendor := "GenuineIntel", Model := "Xeon" }
        CCCapable := true } }

theorem hexVal_hexDig (n : Nat) (h : n < 16) : hexVal (hexDig n) = some n := by
  interval_cases n <;> decide

theorem readStr_escStr (v : List Char) (rest : List Char) :
    readStr (escStr v ++ '"' :: rest) = some (v, rest) := by
  induction v with
  | nil => simp [escStr, readStr]
  | cons c cs ih =>
    by_cases h1 : c = '"'
    · subst h1; simp [escStr, escChar, readStr, consFst, ih]
    · by_cases h2 : c = '\\'
      · subst h2; simp [escStr, escChar, readStr, consFst, ih]
      · by_cases h3 : c = '\n'
        · subst h3; simp [escStr, escChar, readStr, consFst, ih]
        · by_cases h4 : c = '\t'
          · subst h4; simp [escStr, escChar, readStr, consFst, ih]
          · by_cases h5 : c = '\r'
            · subst h5; simp [escStr, escChar, readStr, consFst, ih]
            · by_cases h6 : c.toNat < 32
              · have hd : c.toNat / 16 < 16 := by omega
                have hm : c.toNat % 16 < 16 := Nat.mod_lt _ (by omega)
                have hz : hexVal '0' = some 0 := by decide
                have hx : ((0 * 16 + 0) * 16 + c.toNat / 16) * 16 + c.toNat % 16
                    = c.toNat := by omega
                have hx' : c.toNat / 16 * 16 + c.toNat % 16 = c.toNat := by omega
                simp [escStr, escChar, h1, h2, h3, h4, h5, h6, readStr, hz,
                  hexVal_hexDig _ hd, hexVal_hexDig _ hm, consFst, ih, hx, hx']
              · simp [escStr, escChar, h1, h2, h3, h4, h5, h6, readStr,
                  consFst, ih]

theorem dropLit_append (l rest : List Char) : dropLit l (l ++ rest) = some rest := by
  induction l with
  | nil => simp [dropLit]
  | cons c cs ih => simp [dropLit, ih]

theorem readBool_boolChars (b : Bool) (rest : List Char) :
    readBool (boolChars b ++ rest) = some (b, rest) := by
  cases b
  · simp [readBool, boolChars, dropLit]
  · simp [readBool, boolChars, dropLit]

theorem string_mk_data (s : String) : String.mk s.data = s := rfl

theorem parseFields_encZip :
    ∀ (ps : List (List Char)) (vs : List String) (tail : List Char),
    ps.length = vs.length →
    parseFields ps (encZip ps vs tail) = some (vs, tail) := by
  intro ps
  induction ps with
  | nil =>
    intro vs tail h
    cases vs with
    | nil => simp [parseFields, encZip]
    | cons v vs => simp at h
  | cons p ps ih =>
    intro vs tail h
    cases vs with
    | nil => simp at h
    | cons v vs =>
      simp [encZip, parseFields, dropLit_append, readStr_escStr, string_mk_data,
        ih vs tail (by simpa using h)]

theorem handleSettings_run (env : Env) (metadata : Metadata)
    (configFile logfilePath : String) (config : RuntimeConfig)
    (hm1 : metadata "configFile" = some (.str configFile))
    (hm2 : metadata "runtimeConfig" = some (.runtimeConfig config))
    (hm3 : metadata "logfilePath" = some (.str logfilePath)) :
    handleSettings env metadata =
      (getEnvInfo env configFile logfilePath config).map showSettings := by
  unfold handleSettings
  rw [hm1, hm2, hm3]
  cases h : getEnvInfo env configFile logfilePath config <;>
    simp [h, Except.map, Bind.bind, Except.bind, Pure.pure, Except.pure]

theorem getEnvInfo_ok_spec (env : Env) (cf lf : String) (config : RuntimeConfig)
    (e : EnvInfo) (h : getEnvInfo env cf lf config = .ok e) :
    e.Meta.Version = formatVersion ∧
    e.Runtime.Config.GlobalLogPath = lf ∧
    e.Runtime.Config.Location.Path = cf ∧
    env.evalSymlinks e.Runtime.Config.Location.Path
      = .ok e.Runtime.Config.Location.Resolved ∧
    env.evalSymlinks e.Shim.Location.Path = .ok e.Shim.Location.Resolved ∧
    env.evalSymlinks e.Agent.PauseBin.Path = .ok e.Agent.PauseBin.Resolved ∧
    env.evalSymlinks e.Hypervisor.Path = .ok e.Hypervisor.Resolved ∧
    env.evalSymlinks e.Image.Path = .ok e.Image.Resolved ∧
    env.evalSymlinks e.Kernel.Path = .ok e.Kernel.Resolved ∧
    e.Proxy.Version = unknown ∧ e.Shim.Version = unknown ∧
    e.Agent.Version = unknown := by
  simp only [getEnvInfo, getMetaInfo, getRuntimeInfo, getHypervisorDetails,
    getHostInfo, getProxyInfo, getShimInfo, getAgentInfo,
    Bind.bind, Except.bind, Pure.pure, Except.pure] at h
  cases hcf : env.evalSymlinks cf with
  | error m => simp only [hcf] at h; cases h
  | ok rcf =>
  simp only [hcf] at h
  cases hh : env.evalSymlinks config.HypervisorConfig.HypervisorPath with
  | error m => simp only [hh] at h; cases h
  | ok rh =>
  simp only [hh] at h
  cases hi : env.evalSymlinks config.HypervisorConfig.ImagePath with
  | error m => simp only [hi] at h; cases h
  | ok ri =>
  simp only [hi] at h
  cases hk : env.evalSymlinks config.HypervisorConfig.KernelPath with
  | error m => simp only [hk] at h; cases h
  | ok rk =>
  simp only [hk] at h
  cases hkv : env.kernelVersion with
  | error m => simp only [hkv] at h; cases h
  | ok kv =>
  simp only [hkv] at h
  cases hdd : env.distroDetails with
  | error m => simp only [hdd] at h; cases h
  | ok dd =>
  simp only [hdd] at h
  cases hcd : env.cpuDetails with
  | error m => simp only [hcd] at h; cases h
  | ok cd =>
  simp only [hcd] at h
  cases hpc : config.ProxyConfig with
  | other => simp only [hpc] at h; cases h
  | ccProxy pc =>
  simp only [hpc] at h
  cases hsc : config.ShimConfig with
  | other => simp only [hsc] at h; cases h
  | ccShim sc =>
  simp only [hsc] at h
  cases hsp : env.evalSymlinks sc.Path with
  | error m => simp only [hsp] at h; cases h
  | ok rs =>
  simp only [hsp] at h
  cases hac : config.AgentConfig with
  | other => simp only [hac] at h; cases h
  | hyper ac =>
  simp only [hac] at h
  cases hap : env.evalSymlinks ac.PauseBinPath with
  | error m => simp only [hap] at h; cases h
  | ok ra =>
  simp only [hap] at h
  simp only [Except.ok.injEq] at h
  subst h
  simp [hcf, hsp, hap, hh, hi, hk]


theorem getEnvInfo_ok_shape (env : Env) (cf lf : String) (config : RuntimeConfig)
    (rcf rh ri rk kv rs ra : String) (dd cd : String × String)
    (pc : CCProxyConfig) (sc : CCShimConfig) (ac : HyperConfig)
    (hcf : env.evalSymlinks cf = .ok rcf)
    (hh : env.evalSymlinks config.HypervisorConfig.HypervisorPath = .ok rh)
    (hi : env.evalSymlinks config.HypervisorConfig.ImagePath = .ok ri)
    (hk : env.evalSymlinks config.HypervisorConfig.KernelPath = .ok rk)
    (hkv : env.kernelVersion = .ok kv)
    (hdd : env.distroDetails = .ok dd)
    (hcd : env.cpuDetails = .ok cd)
    (hpc : config.ProxyConfig = .ccProxy pc)
    (hsc : config.ShimConfig = .ccShim sc)
    (hsp : env.evalSymlinks sc.Path = .ok rs)
    (hac : config.AgentConfig = .hyper ac)
    (hap : env.evalSymlinks ac.PauseBinPath = .ok ra) :
    getEnvInfo env cf lf config = .ok
      { Meta := { Version := formatVersion }
        Runtime :=
          { Version := { Semver := version, Commit := commit, OCI := specsVersion }
            Config :=
              { Location := { Path := cf, Resolved := rcf }
                GlobalLogPath := lf } }
        Hypervisor := { Path := config.HypervisorConfig.HypervisorPath, Resolved := rh }
        Image := { Path := config.HypervisorConfig.ImagePath, Resolved := ri }
        Kernel := { Path := config.HypervisorConfig.KernelPath, Resolved := rk }
        Proxy := { Type' := config.ProxyType, Version := unknown, URL := pc.URL }
        Shim := { Type' := config.ShimType, Version := unknown
                  Location := { Path := sc.Path, Resolved := rs } }
        Agent := { Type' := config.AgentType, Version := unknown
                   PauseBin := { Path := ac.PauseBinPath, Resolved := ra } }
        Host := { Kernel := kv, Distro := { Name := dd.1, Version := dd.2 }
                  CPU := { Vendor := cd.1, Model := cd.2 }
                  CCCapable := env.ccCapableProbe.isOk } } := by
  cases hcp : env.ccCapableProbe <;>
    simp only [getEnvInfo, getMetaInfo, getRuntimeInfo, getHypervisorDetails,
      getHostInfo, getProxyInfo, getShimInfo, getAgentInfo,
      Bind.bind, Except.bind, Pure.pure, Except.pure, Except.isOk, Except.toBool,
      hcf, hh, hi, hk, hkv, hdd, hcd, hpc, hsc, hsp, hac, hap, hcp]

theorem getEnvInfo_logfile (env : Env) (cf : String) (config : RuntimeConfig)
    (lf lf' : String) :
    getEnvInfo env cf lf' config =
      (getEnvInfo env cf lf config).map
        (fun e =>
          { e with Runtime :=
              { e.Runtime with Config :=
                  { e.Runtime.Config with GlobalLogPath := lf' } } }) := by
  simp only [getEnvInfo, getMetaInfo, getRuntimeInfo, getHypervisorDetails,
    getHostInfo, getProxyInfo, getShimInfo, getAgentInfo,
    Bind.bind, Except.bind, Pure.pure, Except.pure]
  cases hcf : env.evalSymlinks cf with
  | error m => simp [Except.map]
  | ok rcf =>
  cases hh : env.evalSymlinks config.HypervisorConfig.HypervisorPath with
  | error m => simp [Except.map]
  | ok rh =>
  cases hi : env.evalSymlinks config.HypervisorConfig.ImagePath with
  | error m => simp [Except.map]
  | ok ri =>
  cases hk : env.evalSymlinks config.HypervisorConfig.KernelPath with
  | error m => simp [Except.map]
  | ok rk =>
  cases hkv : env.kernelVersion with
  | error m => simp [Except.map]
  | ok kv =>
  cases hdd : env.distroDetails with
  | error m => simp [Except.map]
  | ok dd =>
  cases hcd : env.cpuDetails with
  | error m => simp [Except.map]
  | ok cd =>
  cases hpc : config.ProxyConfig with
  | other => simp [Except.map]
  | ccProxy pc =>
  cases hsc : config.ShimConfig with
  | other => simp [Except.map]
  | ccShim sc =>
  cases hsp : env.evalSymlinks sc.Path with
  | error m => simp [hsp, Except.map]
  | ok rs =>
  cases hac : config.AgentConfig with
  | other => simp [hsp, hac, Except.map]
  | hyper ac =>
  cases hap : env.evalSymlinks ac.PauseBinPath with
  | error m => simp [hsp, hac, hap, Except.map]
  | ok ra => simp [hsp, hac, hap, Except.map]

/-- C5 For every valid runtime configuration with resolvable paths (all
narrowings and symlink resolutions succeed), getEnvInfo succeeds and the
returned EnvInfo's Meta.Version field exactly equals the fixed format-version
constant formatVersion, which is "1.0.0". -/
theorem c5_meta_version (env : Env) (cf lf : String) (config : RuntimeConfig)
    (rcf rh ri rk kv rs ra : String) (dd cd : String × String)
    (pc : CCProxyConfig) (sc : CCShimConfig) (ac : HyperConfig)
    (hcf : env.evalSymlinks cf = .ok rcf)
    (hh : env.evalSymlinks config.HypervisorConfig.HypervisorPath = .ok rh)
    (hi : env.evalSymlinks config.HypervisorConfig.ImagePath = .ok ri)
    (hk : env.evalSymlinks config.HypervisorConfig.KernelPath = .ok rk)
    (hkv : env.kernelVersion = .ok kv)
    (hdd : env.distroDetails = .ok dd)
    (hcd : env.cpuDetails = .ok cd)
    (hpc : config.ProxyConfig = .ccProxy pc)
    (hsc : config.ShimConfig = .ccShim sc)
    (hsp : env.evalSymlinks sc.Path = .ok rs)
    (hac : config.AgentConfig = .hyper ac)
    (hap : env.evalSymlinks ac.PauseBinPath = .ok ra) :
    ∃ e, getEnvInfo env cf lf config = .ok e ∧
      e.Meta.Version = formatVersion ∧ formatVersion = "1.0.0" :=
  ⟨_, getEnvInfo_ok_shape env cf lf config rcf rh ri rk kv rs ra dd cd pc sc ac
      hcf hh hi hk hkv hdd hcd hpc hsc hsp hac hap, rfl, rfl⟩

/-- Witness for C5 at the concrete sample inputs. -/
theorem c5_witness :
    ∃ e, getEnvInfo sampleEnv "/etc/runtime/config.toml" "/var/log/runtime.log"
        sampleConfig = .ok e ∧
      e.Meta.Version = formatVersion ∧ formatVersion = "1.0.0" :=
  c5_meta_version sampleEnv "/etc/runtime/config.toml" "/var/log/runtime.log"
    sampleConfig _ _ _ _ _ _ _ _ _ _ _ _
    rfl rfl rfl rfl rfl rfl rfl rfl rfl rfl rfl rfl

/-- C7 For every runtime configuration whose proxy configuration narrows
successfully, the resulting ProxyInfo has URL equal to the narrowed proxy
configuration's URL, Type equal to the configured proxy type, and Version
equal to the fixed placeholder constant `unknown` (no live version probing
is performed). -/
theorem c7_proxy_info_fields (config : RuntimeConfig) (pc : CCProxyConfig)
    (h : config.ProxyConfig = .ccProxy pc) :
    getProxyInfo config =
      .ok { Type' := config.ProxyType, Version := unknown, URL := pc.URL } := by
  simp [getProxyInfo, h]

/-- Witness for C7 at the sample configuration. -/
theorem c7_witness :
    sampleConfig.ProxyConfig = .ccProxy { URL := "unix:///run/cc-proxy.sock" } ∧
    getProxyInfo sampleConfig =
      .ok { Type' := "ccProxy", Version := unknown
            URL := "unix:///run/cc-proxy.sock" } :=
  ⟨rfl, c7_proxy_info_fields sampleConfig _ rfl⟩

/-- C9 Before any snapshot work, handleSettings validates the three
app-metadata entries in the order configFile, runtimeConfig, logfilePath; if
an entry is absent or not of the expected dynamic type, it returns the
corresponding error without calling getEnvInfo (the result is the same for
every oracle `env`, so no snapshot work can have contributed to it) and
without writing output (the error result carries no rendered document). -/
theorem c9_metadata_validation (env : Env) (metadata : Metadata) :
    ((∀ s, metadata "configFile" ≠ some (.str s)) →
      handleSettings env metadata = .error "cannot determine config file") ∧
    (∀ cf, metadata "configFile" = some (.str cf) →
      (∀ c, metadata "runtimeConfig" ≠ some (.runtimeConfig c)) →
      handleSettings env metadata = .error "cannot determine runtime config") ∧
    (∀ cf c, metadata "configFile" = some (.str cf) →
      metadata "runtimeConfig" = some (.runtimeConfig c) →
      (∀ s, metadata "logfilePath" ≠ some (.str s)) →
      handleSettings env metadata = .error "cannot determine logfile config") := by
  refine ⟨?_, ?_, ?_⟩
  · intro hno
    unfold handleSettings
    cases hm : metadata "configFile" with
    | none => simp [Bind.bind, Except.bind]
    | some v =>
      cases v with
      | str s => exact absurd hm (hno s)
      | runtimeConfig c => simp [Bind.bind, Except.bind]
      | other => simp [Bind.bind, Except.bind]
  · intro cf hm1 hno
    unfold handleSettings
    rw [hm1]
    cases hm : metadata "runtimeConfig" with
    | none => simp [Bind.bind, Except.bind]
    | some v =>
      cases v with
      | str s => simp [Bind.bind, Except.bind]
      | runtimeConfig c => exact absurd hm (hno c)
      | other => simp [Bind.bind, Except.bind]
  · intro cf c hm1 hm2 hno
    unfold handleSettings
    rw [hm1, hm2]
    cases hm : metadata "logfilePath" with
    | none => simp [Bind.bind, Except.bind]
    | some v =>
      cases v with
      | str s => exact absurd hm (hno s)
      | runtimeConfig c => simp [Bind.bind, Except.bind]
      | other => simp [Bind.bind, Except.bind]

/-- Witness for C9: with an empty metadata map, handleSettings reports the
configFile error (for the concrete sample oracle). -/
theorem c9_witness :
    handleSettings sampleEnv (fun _ => none) =
      .error "cannot determine config file" :=
  (c9_metadata_validation sampleEnv (fun _ => none)).1 (by intro s h; simp at h)

/-- C10 The shim and agent Version fields of every successfully returned
EnvInfo equal the same fixed placeholder constant `unknown` used for the
proxy, and GlobalLogPath is the input log-file path copied verbatim with no
resolution or validation: replacing the log path by any other string (empty
or nonexistent included) still succeeds and changes only that field. -/
theorem c10_placeholder_versions_and_logpath (env : Env) (cf lf : String)
    (config : RuntimeConfig) (e : EnvInfo)
    (h : getEnvInfo env cf lf config = .ok e) :
    e.Shim.Version = unknown ∧ e.Agent.Version = unknown ∧
    e.Proxy.Version = unknown ∧
    e.Runtime.Config.GlobalLogPath = lf ∧
    (∀ lf', getEnvInfo env cf lf' config = .ok
      { e with Runtime :=
          { e.Runtime with Config :=
              { e.Runtime.Config with GlobalLogPath := lf' } } }) := by
  obtain ⟨-, hglp, -, -, -, -, -, -, -, hpv, hsv, hav⟩ :=
    getEnvInfo_ok_spec env cf lf config e h
  refine ⟨hsv, hav, hpv, hglp, ?_⟩
  intro lf'
  rw [getEnvInfo_logfile env cf config lf lf', h]
  rfl

/-- Witness for C10 at the concrete sample inputs, replacing the log path by
the empty string. -/
theorem c10_witness :
    getEnvInfo sampleEnv "/etc/runtime/config.toml" "/var/log/runtime.log"
      sampleConfig = .ok sampleSnapshot ∧
    sampleSnapshot.Shim.Version = unknown ∧
    sampleSnapshot.Agent.Version = unknown ∧
    sampleSnapshot.Runtime.Config.GlobalLogPath = "/var/log/runtime.log" ∧
    getEnvInfo sampleEnv "/etc/runtime/config.toml" "" sampleConfig = .ok
      { sampleSnapshot with Runtime :=
          { sampleSnapshot.Runtime with Config :=
              { sampleSnapshot.Runtime.Config with GlobalLogPath := "" } } } := by
  have h : getEnvInfo sampleEnv "/etc/runtime/config.toml"
      "/var/log/runtime.log" sampleConfig = .ok sampleSnapshot := by rfl
  have c := c10_placeholder_versions_and_logpath sampleEnv
    "/etc/runtime/config.toml" "/var/log/runtime.log" sampleConfig
    sampleSnapshot h
  exact ⟨h, c.1, c.2.1, c.2.2.2.1, c.2.2.2.2 ""⟩

/-- C1 For every runtime configuration whose proxy (respectively shim, agent)
configuration value is not of the expected concrete type, getEnvInfo fails
with the error naming that subsystem ("cannot determine proxy config" /
"cannot determine shim config" / "cannot determine agent config") and returns
no partial EnvInfo (the error result carries no snapshot, matching the Go
zero-value-plus-error convention) and nothing is rendered (handleSettings
propagates the error without producing a document). The steps preceding the
failing narrowing are assumed to succeed, since an earlier failure would be
reported first. -/
theorem c1_narrowing_failure_aborts (env : Env) (cf lf : String)
    (config : RuntimeConfig) (metadata : Metadata)
    (rcf rh ri rk kv : String) (dd cd : String × String)
    (hm1 : metadata "configFile" = some (.str cf))
    (hm2 : metadata "runtimeConfig" = some (.runtimeConfig config))
    (hm3 : metadata "logfilePath" = some (.str lf))
    (hcf : env.evalSymlinks cf = .ok rcf)
    (hh : env.evalSymlinks config.HypervisorConfig.HypervisorPath = .ok rh)
    (hi : env.evalSymlinks config.HypervisorConfig.ImagePath = .ok ri)
    (hk : env.evalSymlinks config.HypervisorConfig.KernelPath = .ok rk)
    (hkv : env.kernelVersion = .ok kv)
    (hdd : env.distroDetails = .ok dd)
    (hcd : env.cpuDetails = .ok cd) :
    (config.ProxyConfig = .other →
      getEnvInfo env cf lf config = .error "cannot determine proxy config" ∧
      handleSettings env metadata = .error "cannot determine proxy config") ∧
    (∀ pc, config.ProxyConfig = .ccProxy pc →
      config.ShimConfig = .other →
      getEnvInfo env cf lf config = .error "cannot determine shim config" ∧
      handleSettings env metadata = .error "cannot determine shim config") ∧
    (∀ pc sc rs, config.ProxyConfig = .ccProxy pc →
      config.ShimConfig = .ccShim sc →
      env.evalSymlinks sc.Path = .ok rs →
      config.AgentConfig = .other →
      getEnvInfo env cf lf config = .error "cannot determine agent config" ∧
      handleSettings env metadata = .error "cannot determine agent config") := by
  have hrun := handleSettings_run env metadata cf lf config hm1 hm2 hm3
  refine ⟨?_, ?_, ?_⟩
  · intro hp
    have hge : getEnvInfo env cf lf config
        = .error "cannot determine proxy config" := by
      simp only [getEnvInfo, getMetaInfo, getRuntimeInfo, getHypervisorDetails,
        getHostInfo, getProxyInfo, getShimInfo, getAgentInfo,
        Bind.bind, Except.bind, Pure.pure, Except.pure,
        hcf, hh, hi, hk, hkv, hdd, hcd, hp]
    exact ⟨hge, by rw [hrun, hge]; rfl⟩
  · intro pc hp hs
    have hge : getEnvInfo env cf lf config
        = .error "cannot determine shim config" := by
      simp only [getEnvInfo, getMetaInfo, getRuntimeInfo, getHypervisorDetails,
        getHostInfo, getProxyInfo, getShimInfo, getAgentInfo,
        Bind.bind, Except.bind, Pure.pure, Except.pure,
        hcf, hh, hi, hk, hkv, hdd, hcd, hp, hs]
    exact ⟨hge, by rw [hrun, hge]; rfl⟩
  · intro pc sc rs hp hs hsp ha
    have hge : getEnvInfo env cf lf config
        = .error "cannot determine agent config" := by
      simp only [getEnvInfo, getMetaInfo, getRuntimeInfo, getHypervisorDetails,
        getHostInfo, getProxyInfo, getShimInfo, getAgentInfo,
        Bind.bind, Except.bind, Pure.pure, Except.pure,
        hcf, hh, hi, hk, hkv, hdd, hcd, hp, hs, hsp, ha]
    exact ⟨hge, by rw [hrun, hge]; rfl⟩

/-- Witness for C1: at the sample inputs, a wrongly typed proxy, shim or
agent configuration produces the corresponding narrowing error. -/
theorem c1_witness :
    getEnvInfo sampleEnv "/etc/runtime/config.toml" "/var/log/runtime.log"
      badProxyConfig = .error "cannot determine proxy config" ∧
    getEnvInfo sampleEnv "/etc/runtime/config.toml" "/var/log/runtime.log"
      badShimConfig = .error "cannot determine shim config" ∧
    getEnvInfo sampleEnv "/etc/runtime/config.toml" "/var/log/runtime.log"
      badAgentConfig = .error "cannot determine agent config" := by
  refine ⟨?_, ?_, ?_⟩
  · exact ((c1_narrowing_failure_aborts sampleEnv "/etc/runtime/config.toml"
      "/var/log/runtime.log" badProxyConfig
      (fun k => if k = "configFile" then some (.str "/etc/runtime/config.toml")
        else if k = "runtimeConfig" then some (.runtimeConfig badProxyConfig)
        else some (.str "/var/log/runtime.log"))
      _ _ _ _ _ _ _ rfl rfl rfl rfl rfl rfl rfl rfl rfl rfl).1 rfl).1
  · exact ((c1_narrowing_failure_aborts sampleEnv "/etc/runtime/config.toml"
      "/var/log/runtime.log" badShimConfig
      (fun k => if k = "configFile" then some (.str "/etc/runtime/config.toml")
        else if k = "runtimeConfig" then some (.runtimeConfig badShimConfig)
        else some (.str "/var/log/runtime.log"))
      _ _ _ _ _ _ _ rfl rfl rfl rfl rfl rfl rfl rfl rfl rfl).2.1
      ⟨"unix:///run/cc-proxy.sock"⟩ rfl rfl).1
  · exact ((c1_narrowing_failure_aborts sampleEnv "/etc/runtime/config.toml"
      "/var/log/runtime.log" badAgentConfig
      (fun k => if k = "configFile" then some (.str "/etc/runtime/config.toml")
        else if k = "runtimeConfig" then some (.runtimeConfig badAgentConfig)
        else some (.str "/var/log/runtime.log"))
      _ _ _ _ _ _ _ rfl rfl rfl rfl rfl rfl rfl rfl rfl rfl).2.2
      ⟨"unix:///run/cc-proxy.sock"⟩ ⟨"/usr/bin/shim"⟩ "/usr/bin/shim-v2"
      rfl rfl rfl rfl).1

/-- C2 A failure of the virtualization-capability probe is not propagated:
getHostInfo still succeeds (given the kernel/distro/CPU probes succeed) with
Host.CCCapable false, and true when the probe succeeds; under the remaining
success hypotheses getEnvInfo hence also succeeds with the same CCCapable
value. -/
theorem c2_capability_probe_swallowed (env : Env) (cf lf : String)
    (config : RuntimeConfig)
    (rcf rh ri rk kv rs ra : String) (dd cd : String × String)
    (pc : CCProxyConfig) (sc : CCShimConfig) (ac : HyperConfig)
    (hcf : env.evalSymlinks cf = .ok rcf)
    (hh : env.evalSymlinks config.HypervisorConfig.HypervisorPath = .ok rh)
    (hi : env.evalSymlinks config.HypervisorConfig.ImagePath = .ok ri)
    (hk : env.evalSymlinks config.HypervisorConfig.KernelPath = .ok rk)
    (hkv : env.kernelVersion = .ok kv)
    (hdd : env.distroDetails = .ok dd)
    (hcd : env.cpuDetails = .ok cd)
    (hpc : config.ProxyConfig = .ccProxy pc)
    (hsc : config.ShimConfig = .ccShim sc)
    (hsp : env.evalSymlinks sc.Path = .ok rs)
    (hac : config.AgentConfig = .hyper ac)
    (hap : env.evalSymlinks ac.PauseBinPath = .ok ra) :
    getHostInfo env = .ok
      { Kernel := kv, Distro := { Name := dd.1, Version := dd.2 }
        CPU := { Vendor := cd.1, Model := cd.2 }
        CCCapable := env.ccCapableProbe.isOk } ∧
    (∀ msg, env.ccCapableProbe = .error msg → env.ccCapableProbe.isOk = false) ∧
    (∀ u, env.ccCapableProbe = .ok u → env.ccCapableProbe.isOk = true) ∧
    ∃ e, getEnvInfo env cf lf config = .ok e ∧
      e.Host.CCCapable = env.ccCapableProbe.isOk := by
  refine ⟨?_, ?_, ?_, ?_⟩
  · cases hcp : env.ccCapableProbe <;>
      simp only [getHostInfo, Bind.bind, Except.bind, Pure.pure, Except.pure,
        hkv, hdd, hcd, hcp, Except.isOk, Except.toBool]
  · intro msg hcp; simp [hcp, Except.isOk, Except.toBool]
  · intro u hcp; simp [hcp, Except.isOk, Except.toBool]
  · exact ⟨_, getEnvInfo_ok_shape env cf lf config rcf rh ri rk kv rs ra dd cd
      pc sc ac hcf hh hi hk hkv hdd hcd hpc hsc hsp hac hap, rfl⟩

/-- Witness for C2: with the failing probe oracle, getHostInfo succeeds with
CCCapable false, and getEnvInfo succeeds with the same value. -/
theorem c2_witness :
    getHostInfo envProbeFail = .ok
      { Kernel := "4.14.0"
        Distro := { Name := "Clear Linux", Version := "21060" }
        CPU := { Vendor := "GenuineIntel", Model := "Xeon" }
        CCCapable := false } ∧
    ∃ e, getEnvInfo envProbeFail "/etc/runtime/config.toml"
        "/var/log/runtime.log" sampleConfig = .ok e ∧
      e.Host.CCCapable = false := by
  have c := c2_capability_probe_swallowed envProbeFail
    "/etc/runtime/config.toml" "/var/log/runtime.log" sampleConfig
    _ _ _ _ _ _ _ _ _ _ _ _ rfl rfl rfl rfl rfl rfl rfl rfl rfl rfl rfl rfl
  exact ⟨c.1, c.2.2.2⟩

/-- C3 For every input where the configuration file path cannot be
symlink-resolved, getEnvInfo fails with the path-resolution error and
produces no output: the error result carries no EnvInfo, and handleSettings
propagates the error without rendering a document. -/
theorem c3_config_path_failure (env : Env) (cf lf : String)
    (config : RuntimeConfig) (metadata : Metadata) (msg : String)
    (hm1 : metadata "configFile" = some (.str cf))
    (hm2 : metadata "runtimeConfig" = some (.runtimeConfig config))
    (hm3 : metadata "logfilePath" = some (.str lf))
    (h : env.evalSymlinks cf = .error msg) :
    getEnvInfo env cf lf config = .error msg ∧
    handleSettings env metadata = .error msg := by
  have hge : getEnvInfo env cf lf config = .error msg := by
    simp only [getEnvInfo, getRuntimeInfo, Bind.bind, Except.bind,
      Pure.pure, Except.pure, h]
  exact ⟨hge,
    by rw [handleSettings_run env metadata cf lf config hm1 hm2 hm3, hge]; rfl⟩

/-- Witness for C3: a nonexistent configuration file path. -/
theorem c3_witness :
    getEnvInfo sampleEnv "/nonexistent.toml" "/var/log/runtime.log"
      sampleConfig = .error "no such file or directory" ∧
    handleSettings sampleEnv sampleMetadataBadPath
      = .error "no such file or directory" :=
  c3_config_path_failure sampleEnv "/nonexistent.toml" "/var/log/runtime.log"
    sampleConfig sampleMetadataBadPath "no such file or directory"
    rfl rfl rfl rfl

/-- Counterexample to C4: at a concrete state where both the hypervisor-path
resolution and the host kernel-version probe fail, getEnvInfo reports the
hypervisor-path error and not the host-probe error the claim predicts, since
the source calls getHypervisorDetails (cc-env.go line 275) before getHostInfo
(line 280), the reverse of the spec's listed order. -/
theorem c4_counterexample :
    getEnvInfo envBothFail "/etc/runtime/config.toml" "/var/log/runtime.log"
      sampleConfig = .error "hypervisor path error" ∧
    getEnvInfo envBothFail "/etc/runtime/config.toml" "/var/log/runtime.log"
      sampleConfig ≠ .error "host probe error" := by
  have h1 : getEnvInfo envBothFail "/etc/runtime/config.toml"
      "/var/log/runtime.log" sampleConfig
      = .error "hypervisor path error" := by rfl
  refine ⟨h1, ?_⟩
  rw [h1]
  simp

/-- C4 (amended) getEnvInfo performs its fallible steps in the source's
order — format metadata (infallible), runtime-config resolution,
hypervisor/image/kernel path reading, host probes, proxy narrowing, shim
narrowing, agent narrowing — and the first failure in that order aborts the
whole snapshot with exactly that step's error; in particular a
hypervisor-path error is reported in preference to a host-probe error, the
reverse of the claimed preference. -/
theorem c4_step_order (env : Env) (cf lf : String) (config : RuntimeConfig) :
    (∀ msg, getRuntimeInfo env cf lf = .error msg →
      getEnvInfo env cf lf config = .error msg) ∧
    (∀ r msg, getRuntimeInfo env cf lf = .ok r →
      getHypervisorDetails env config = .error msg →
      getEnvInfo env cf lf config = .error msg) ∧
    (∀ r hv msg, getRuntimeInfo env cf lf = .ok r →
      getHypervisorDetails env config = .ok hv →
      getHostInfo env = .error msg →
      getEnvInfo env cf lf config = .error msg) ∧
    (∀ r hv host msg, getRuntimeInfo env cf lf = .ok r →
      getHypervisorDetails env config = .ok hv →
      getHostInfo env = .ok host →
      getProxyInfo config = .error msg →
      getEnvInfo env cf lf config = .error msg) ∧
    (∀ r hv host p msg, getRuntimeInfo env cf lf = .ok r →
      getHypervisorDetails env config = .ok hv →
      getHostInfo env = .ok host →
      getProxyInfo config = .ok p →
      getShimInfo env config = .error msg →
      getEnvInfo env cf lf config = .error msg) ∧
    (∀ r hv host p s msg, getRuntimeInfo env cf lf = .ok r →
      getHypervisorDetails env config = .ok hv →
      getHostInfo env = .ok host →
      getProxyInfo config = .ok p →
      getShimInfo env config = .ok s →
      getAgentInfo env config = .error msg →
      getEnvInfo env cf lf config = .error msg) ∧
    (∀ r hv host p s a, getRuntimeInfo env cf lf = .ok r →
      getHypervisorDetails env config = .ok hv →
      getHostInfo env = .ok host →
      getProxyInfo config = .ok p →
      getShimInfo env config = .ok s →
      getAgentInfo env config = .ok a →
      getEnvInfo env cf lf config = .ok
        { Meta := getMetaInfo
          Runtime := r
          Hypervisor := { Path := config.HypervisorConfig.HypervisorPath
                          Resolved := hv.HypervisorPath }
          Image := { Path := config.HypervisorConfig.ImagePath
                     Resolved := hv.ImagePath }
          Kernel := { Path := config.HypervisorConfig.KernelPath
                      Resolved := hv.KernelPath }
          Proxy := p, Shim := s, Agent := a, Host := host }) := by
  refine ⟨?_, ?_, ?_, ?_, ?_, ?_, ?_⟩ <;> intros <;>
    simp only [getEnvInfo, Bind.bind, Except.bind, Pure.pure, Except.pure, *]

/-- Witness for the amended C4: at the concrete both-failures state, the
hypervisor-path reading step is the first failing step in the code's order
and its error is the one reported, while the host probe would also have
failed. -/
theorem c4_witness :
    getEnvInfo envBothFail "/etc/runtime/config.toml" "/var/log/runtime.log"
      sampleConfig = .error "hypervisor path error" ∧
    getHostInfo envBothFail = .error "host probe error" :=
  ⟨(c4_step_order envBothFail "/etc/runtime/config.toml"
      "/var/log/runtime.log" sampleConfig).2.1 _ "hypervisor path error"
      rfl rfl,
   rfl⟩

/-- C6 Every PathInfo contained in a successfully returned EnvInfo (the
runtime config location, the shim location, the agent pause binary, and the
hypervisor/image/kernel path pairs) has its Resolved field equal to the
symlink-resolved form of its Path field, and constructing a PathInfo fails
when the path cannot be resolved (shown for the shim, agent and
runtime-location constructions, the ones the code performs itself). -/
theorem c6_pathinfo_invariant (env : Env) (cf lf : String)
    (config : RuntimeConfig) (e : EnvInfo)
    (h : getEnvInfo env cf lf config = .ok e) :
    (env.evalSymlinks e.Runtime.Config.Location.Path
      = .ok e.Runtime.Config.Location.Resolved) ∧
    (env.evalSymlinks e.Shim.Location.Path = .ok e.Shim.Location.Resolved) ∧
    (env.evalSymlinks e.Agent.PauseBin.Path = .ok e.Agent.PauseBin.Resolved) ∧
    (env.evalSymlinks e.Hypervisor.Path = .ok e.Hypervisor.Resolved) ∧
    (env.evalSymlinks e.Image.Path = .ok e.Image.Resolved) ∧
    (env.evalSymlinks e.Kernel.Path = .ok e.Kernel.Resolved) ∧
    (∀ (c' : RuntimeConfig) sc msg, c'.ShimConfig = .ccShim sc →
      env.evalSymlinks sc.Path = .error msg →
      getShimInfo env c' = .error msg) ∧
    (∀ (c' : RuntimeConfig) ac msg, c'.AgentConfig = .hyper ac →
      env.evalSymlinks ac.PauseBinPath = .error msg →
      getAgentInfo env c' = .error msg) ∧
    (∀ cf' lf' msg, env.evalSymlinks cf' = .error msg →
      getRuntimeInfo env cf' lf' = .error msg) := by
  obtain ⟨-, -, -, h4, h5, h6, h7, h8, h9, -, -, -⟩ :=
    getEnvInfo_ok_spec env cf lf config e h
  refine ⟨h4, h5, h6, h7, h8, h9, ?_, ?_, ?_⟩
  · intro c' sc msg hsc hsp
    simp only [getShimInfo, hsc, hsp, Bind.bind, Except.bind]
  · intro c' ac msg hac hap
    simp only [getAgentInfo, hac, hap, Bind.bind, Except.bind]
  · intro cf' lf' msg hcf
    simp only [getRuntimeInfo, hcf, Bind.bind, Except.bind]

/-- Witness for C6, realizing the spec's scenario: the shim path
`/usr/bin/shim` is a symlink to `/usr/bin/shim-v2`, and the document's
Shim.Location carries exactly that pair, satisfying the invariant. -/
theorem c6_witness :
    getEnvInfo sampleEnv "/etc/runtime/config.toml" "/var/log/runtime.log"
      sampleConfig = .ok sampleSnapshot ∧
    sampleSnapshot.Shim.Location.Path = "/usr/bin/shim" ∧
    sampleSnapshot.Shim.Location.Resolved = "/usr/bin/shim-v2" ∧
    sampleEnv.evalSymlinks sampleSnapshot.Shim.Location.Path
      = .ok sampleSnapshot.Shim.Location.Resolved := by
  have h : getEnvInfo sampleEnv "/etc/runtime/config.toml"
      "/var/log/runtime.log" sampleConfig = .ok sampleSnapshot := by rfl
  exact ⟨h, rfl, rfl,
    (c6_pathinfo_invariant sampleEnv "/etc/runtime/config.toml"
      "/var/log/runtime.log" sampleConfig sampleSnapshot h).2.1⟩

/-- C8 Round-trip: for every EnvInfo value, rendering it with the snapshot
renderer (TOML encoding) and parsing the produced document back into the
structured shape yields the original EnvInfo field for field — serialization
is lossless for this aggregate. -/
theorem c8_roundtrip (e : EnvInfo) : decodeEnvInfo (showSettings e) = some e := by
  have h1 := parseFields_encZip preLits1 (vals1 e)
    (boolPre ++ (boolChars e.Host.CCCapable ++ encZip preLits2 (vals2 e) tailLit))
    (by rfl)
  have h2 := parseFields_encZip preLits2 (vals2 e) tailLit (by rfl)
  have h3 := dropLit_append boolPre
    (boolChars e.Host.CCCapable ++ encZip preLits2 (vals2 e) tailLit)
  have h4 := readBool_boolChars e.Host.CCCapable
    (encZip preLits2 (vals2 e) tailLit)
  have h5 : dropLit tailLit tailLit = some [] := by
    simpa using dropLit_append tailLit []
  simp only [showSettings, encodeEnvInfo, decodeEnvInfo, decodeEnvInfoL,
    encodeEnvInfoL, Bind.bind, Option.bind, h1, h3, h4, h2, h5]
  simp only [vals1, vals2]

end CCEnv
